import Mathlib

/-!
# Budget notification resource: reconciliation engine

A shallow embedding of `aws/resource_aws_budgets_budget_notification.go`.

* The remote budgeting service is a value of type `Budgets`: an oracle that, given the
  calls issued so far and the next call, says whether that call fails and what it returns.
* Every lifecycle operation returns the Go `error` (`none` is `nil`), the resource data it
  leaves behind where it mutates it, and the list of remote calls it issued, in issue order.
* `float64` values are 64-bit patterns compared with the IEEE-754 `==` of the language.
-/

namespace BudgetNotification

/-! ## Values of the language and of the libraries -/

/-- A `float64`, as its IEEE-754 binary64 bit pattern (taken modulo `2^64`). -/
structure Float64 where
  bits : Nat
deriving DecidableEq, Repr

/-- The 11 exponent bits. -/
def Float64.exponent (x : Float64) : Nat := (x.bits % 2 ^ 64) / 2 ^ 52 % 2 ^ 11

/-- The 52 fraction bits. -/
def Float64.fraction (x : Float64) : Nat := x.bits % 2 ^ 52

/-- Not-a-number: all exponent bits set and a non-zero fraction. -/
def Float64.isNaN (x : Float64) : Bool := x.exponent == 2047 && x.fraction != 0

/-- Positive or negative zero: everything but the sign bit is clear. -/
def Float64.isZero (x : Float64) : Bool := x.bits % 2 ^ 63 == 0

/-- The `==` operator on `float64`: a NaN equals nothing, the two zeros are equal, and
otherwise two values are equal when their bit patterns are. -/
def float64Eq (x y : Float64) : Bool :=
  !x.isNaN && !y.isNaN && (x.bits % 2 ^ 64 == y.bits % 2 ^ 64 || (x.isZero && y.isZero))

/-- A Go `error` value: one made locally by `fmt.Errorf`, or one returned by the remote
client. -/
inductive Error where
  | errorf (msg : String)
  | awserr (code : String) (message : String)
deriving DecidableEq, Repr

/-- The `*schema.Set` of strings: `items` is what `List()` returns, in that order, and a set
holds no element twice. -/
structure SchemaSet where
  items : List String
  nodup : items.Nodup

instance : DecidableEq SchemaSet := fun a b =>
  decidable_of_iff (a.items = b.items) (by cases a; cases b; simp)

/-- The empty set, `new(schema.Set)`. -/
def SchemaSet.empty : SchemaSet := ⟨[], List.nodup_nil⟩

/-- The set a list of strings becomes when it is stored under a set-typed key. -/
def SchemaSet.ofList (l : List String) : SchemaSet := ⟨l.dedup, l.nodup_dedup⟩

/-- The method `Set.List`. -/
def SchemaSet.List (s : SchemaSet) : List String := s.items

/-- The method `Set.Len`. -/
def SchemaSet.Len (s : SchemaSet) : Nat := s.items.length

/-- The method `Set.Difference`: the elements of `s` that are not in `other`. -/
def SchemaSet.Difference (s other : SchemaSet) : SchemaSet :=
  ⟨s.items.filter (fun a => decide (a ∉ other.items)), s.nodup.filter _⟩

/-- The constant `budgets.SubscriptionTypeSns`. -/
def SubscriptionTypeSns : String := "SNS"

/-- The constant `budgets.SubscriptionTypeEmail`. -/
def SubscriptionTypeEmail : String := "EMAIL"

/-- The constant `budgets.ThresholdTypePercentage`. -/
def ThresholdTypePercentage : String := "PERCENTAGE"

/-- The constant `budgets.ThresholdTypeAbsoluteValue`. -/
def ThresholdTypeAbsoluteValue : String := "ABSOLUTE_VALUE"

/-- The shape `budgets.Notification`. `ComparisonOperator`, `Threshold` and
`NotificationType` are required members of the shape; `ThresholdType` is a pointer that
the service may leave `nil`. -/
structure Notification where
  ComparisonOperator : String
  Threshold : Float64
  ThresholdType : Option String
  NotificationType : String
deriving DecidableEq, Repr

/-- The shape `budgets.Subscriber`. -/
structure Subscriber where
  SubscriptionType : String
  Address : String
deriving DecidableEq, Repr

/-- A remote call, with the input it carries. -/
inductive Call where
  | CreateNotification (BudgetName AccountId : String) (Notification : Notification)
      (Subscribers : List Subscriber)
  | DescribeNotificationsForBudget (BudgetName AccountId : String)
  | DescribeSubscribersForNotification (Notification : Notification)
      (BudgetName AccountId : String)
  | CreateSubscriber (BudgetName AccountId : String) (Notification : Notification)
      (Subscriber : Subscriber)
  | DeleteSubscriber (BudgetName AccountId : String) (Notification : Notification)
      (Subscriber : Subscriber)
  | UpdateNotification (BudgetName AccountId : String)
      (NewNotification OldNotification : Notification)
  | DeleteNotification (BudgetName AccountId : String) (Notification : Notification)
deriving DecidableEq, Repr

/-- The remote budgeting client `budgetconn`. `err hist call` is the error `call` returns
when it is issued after the calls `hist` (`none` when it succeeds); the two other fields
are the payloads of the describe calls when they succeed. -/
structure Budgets where
  err : List Call → Call → Option Error
  Notifications : List Call → Call → List Notification
  Subscribers : List Call → Call → List Subscriber

/-- The provider configuration `*AWSClient`, as far as this resource reads it. -/
structure AWSClient where
  accountid : String
  budgetconn : Budgets

/-- The attributes of the resource schema. -/
structure Attrs where
  budget_name : String
  account_id : String
  comparison_operator : String
  threshold : Float64
  threshold_type : String
  notification_type : String
  subscriber_email_addresses : SchemaSet
  subscriber_sns_topic_arns : SchemaSet
deriving DecidableEq

/-- The `*schema.ResourceData`: the resource id, the attributes `GetChange` returns as
old (the recorded state) and the attributes it returns as new, which are the ones
`Get` reads and `Set` writes. -/
structure ResourceData where
  Id : String
  old : Attrs
  new : Attrs
deriving DecidableEq

/-- The method `SetId`. -/
def ResourceData.SetId (d : ResourceData) (v : String) : ResourceData := { d with Id := v }

/-- The method `GetChange` on a set-typed key; a key the schema does not have gives
`nil, nil`. -/
def ResourceData.GetChangeSet (d : ResourceData) (key : String) :
    Option SchemaSet × Option SchemaSet :=
  if key = "subscriber_email_addresses" then
    (some d.old.subscriber_email_addresses, some d.new.subscriber_email_addresses)
  else if key = "subscriber_sns_topic_arns" then
    (some d.old.subscriber_sns_topic_arns, some d.new.subscriber_sns_topic_arns)
  else (none, none)

/-- The method `GetOk` on a set-typed key: the value, and whether it is set to something
other than the zero value, the empty set. -/
def ResourceData.GetOkSet (d : ResourceData) (key : String) : Option SchemaSet × Bool :=
  match (d.GetChangeSet key).2 with
  | some s => (some s, s.Len != 0)
  | none => (none, false)

/-- The method `HasChange`: the old and the new value are not equal, by `Equal` for sets
and by `reflect.DeepEqual`, which is `==` on strings and floats, for the rest. -/
def ResourceData.HasChange (d : ResourceData) (key : String) : Bool :=
  if key = "budget_name" then d.old.budget_name != d.new.budget_name
  else if key = "account_id" then d.old.account_id != d.new.account_id
  else if key = "comparison_operator" then d.old.comparison_operator != d.new.comparison_operator
  else if key = "threshold" then !float64Eq d.old.threshold d.new.threshold
  else if key = "threshold_type" then d.old.threshold_type != d.new.threshold_type
  else if key = "notification_type" then d.old.notification_type != d.new.notification_type
  else if key = "subscriber_email_addresses" then
    !((d.old.subscriber_email_addresses.Difference d.new.subscriber_email_addresses).Len == 0
      && (d.new.subscriber_email_addresses.Difference d.old.subscriber_email_addresses).Len == 0)
  else if key = "subscriber_sns_topic_arns" then
    !((d.old.subscriber_sns_topic_arns.Difference d.new.subscriber_sns_topic_arns).Len == 0
      && (d.new.subscriber_sns_topic_arns.Difference d.old.subscriber_sns_topic_arns).Len == 0)
  else false

/-- Modelled from the spec: `expandStringSet` is not among the source files; it turns the
set of addresses of one kind into the list of its addresses. -/
def expandStringSet (s : SchemaSet) : List String := s.List

/-! ## The resource -/

/-- The account the notification belongs to: the `account_id` attribute when it is set,
the account of the provider otherwise. -/
def budgetNotificationAccountId (d : ResourceData) (meta : AWSClient) : String :=
  if d.new.account_id ≠ "" then d.new.account_id else meta.accountid

/-- The notification descriptor of the attributes `Get` reads. -/
def expandNotification (d : ResourceData) : Notification :=
  { ComparisonOperator := d.new.comparison_operator
    Threshold := d.new.threshold
    ThresholdType := some d.new.threshold_type
    NotificationType := d.new.notification_type }

/-- The subscribers of one kind, read from the set under `key`. -/
def expandSubscribersType (d : ResourceData) (key : String) (subscriptionType : String) :
    List Subscriber :=
  match d.GetOkSet key with
  | (some value, true) =>
    (expandStringSet value).map
      (fun addr => { SubscriptionType := subscriptionType, Address := addr })
  | _ => []

/-- All subscribers: the topics, then the email addresses. -/
def expandSubscribers (d : ResourceData) : List Subscriber :=
  expandSubscribersType d "subscriber_sns_topic_arns" SubscriptionTypeSns ++
    expandSubscribersType d "subscriber_email_addresses" SubscriptionTypeEmail

/-- A missing `ThresholdType` becomes `PERCENTAGE`. -/
def setNotificationDefaults (notification : Notification) : Notification :=
  match notification.ThresholdType with
  | none => { notification with ThresholdType := some ThresholdTypePercentage }
  | some _ => notification

/-- Equality on the four fields of the comparison key. Both `ThresholdType` pointers are
set wherever this is called. -/
def isSameNotification (notification expectedNotification : Notification) : Bool :=
  notification.ThresholdType == expectedNotification.ThresholdType &&
  float64Eq notification.Threshold expectedNotification.Threshold &&
  notification.NotificationType == expectedNotification.NotificationType &&
  notification.ComparisonOperator == expectedNotification.ComparisonOperator

/-- The sets of addresses to remove and to add under `key`. -/
def diffSubscriptionList (d : ResourceData) (key : String) : SchemaSet × SchemaSet :=
  let (oraw, nraw) := d.GetChangeSet key
  let os := match oraw with
    | none => SchemaSet.empty
    | some s => s
  let ns := match nraw with
    | none => SchemaSet.empty
    | some s => s
  let remove := os.Difference ns
  let add := ns.Difference os
  (remove, add)

/-- The loop of `resourceAwsBudgetsBudgetNotificationAddSubscriber`: one `CreateSubscriber`
call per address, stopping at the first that fails. -/
def addSubscriberLoop (subscriptionType : String) (d : ResourceData) (meta : AWSClient) :
    List String → List Call → Option Error × List Call
  | [], _ => (none, [])
  | addr :: rest, hist =>
    let call := Call.CreateSubscriber d.new.budget_name (budgetNotificationAccountId d meta)
      (expandNotification d) { SubscriptionType := subscriptionType, Address := addr }
    match meta.budgetconn.err hist call with
    | some err => (some err, [call])
    | none =>
      let r := addSubscriberLoop subscriptionType d meta rest (hist ++ [call])
      (r.1, call :: r.2)

/-- Adds the addresses of `add` as subscribers of kind `subscriptionType`. -/
def resourceAwsBudgetsBudgetNotificationAddSubscriber (add : SchemaSet)
    (subscriptionType : String) (d : ResourceData) (meta : AWSClient) (hist : List Call) :
    Option Error × List Call :=
  addSubscriberLoop subscriptionType d meta add.List hist

/-- The loop of `resourceAwsBudgetsBudgetNotificationDeleteSubscriber`: one
`DeleteSubscriber` call per address, stopping at the first that fails. -/
def deleteSubscriberLoop (subscriptionType : String) (d : ResourceData) (meta : AWSClient) :
    List String → List Call → Option Error × List Call
  | [], _ => (none, [])
  | addr :: rest, hist =>
    let call := Call.DeleteSubscriber d.new.budget_name (budgetNotificationAccountId d meta)
      (expandNotification d) { SubscriptionType := subscriptionType, Address := addr }
    match meta.budgetconn.err hist call with
    | some err => (some err, [call])
    | none =>
      let r := deleteSubscriberLoop subscriptionType d meta rest (hist ++ [call])
      (r.1, call :: r.2)

/-- Removes the addresses of `add` from the subscribers of kind `subscriptionType`. -/
def resourceAwsBudgetsBudgetNotificationDeleteSubscriber (add : SchemaSet)
    (subscriptionType : String) (d : ResourceData) (meta : AWSClient) (hist : List Call) :
    Option Error × List Call :=
  deleteSubscriberLoop subscriptionType d meta add.List hist

/-- Brings the remote subscribers to the desired ones: add emails, add topics, remove
emails, remove topics, stopping at the first error. -/
def resourceAwsBudgetsBudgetNotificationUpdateSubscriptions (d : ResourceData)
    (meta : AWSClient) (hist : List Call) : Option Error × List Call :=
  let (removeEmail, addEmail) := diffSubscriptionList d "subscriber_email_addresses"
  let (removeTopic, addTopic) := diffSubscriptionList d "subscriber_sns_topic_arns"
  match resourceAwsBudgetsBudgetNotificationAddSubscriber addEmail SubscriptionTypeEmail
      d meta hist with
  | (some err, cs1) => (some err, cs1)
  | (none, cs1) =>
    match resourceAwsBudgetsBudgetNotificationAddSubscriber addTopic SubscriptionTypeSns
        d meta (hist ++ cs1) with
    | (some err, cs2) => (some err, cs1 ++ cs2)
    | (none, cs2) =>
      match resourceAwsBudgetsBudgetNotificationDeleteSubscriber removeEmail
          SubscriptionTypeEmail d meta (hist ++ cs1 ++ cs2) with
      | (some err, cs3) => (some err, cs1 ++ cs2 ++ cs3)
      | (none, cs3) =>
        match resourceAwsBudgetsBudgetNotificationDeleteSubscriber removeTopic
            SubscriptionTypeSns d meta (hist ++ cs1 ++ cs2 ++ cs3) with
        | (some err, cs4) => (some err, cs1 ++ cs2 ++ cs3 ++ cs4)
        | (none, cs4) => (none, cs1 ++ cs2 ++ cs3 ++ cs4)

/-- The update operation. -/
def resourceAwsBudgetsBudgetNotificationUpdate (d : ResourceData) (meta : AWSClient)
    (hist : List Call) : Option Error × List Call :=
  if (expandSubscribers d).length = 0 then
    (some (Error.errorf "Notification must have at least one subscriber!"), [])
  else
    match resourceAwsBudgetsBudgetNotificationUpdateSubscriptions d meta hist with
    | (some err, cs) => (some err, cs)
    | (none, cs) =>
      if d.HasChange "comparison_operator" || d.HasChange "threshold" ||
          d.HasChange "threshold_type" || d.HasChange "notification_type" then
        let oldNotification : Notification :=
          { ComparisonOperator := d.old.comparison_operator
            Threshold := d.old.threshold
            ThresholdType := some d.old.threshold_type
            NotificationType := d.old.notification_type }
        let call := Call.UpdateNotification d.new.budget_name
          (budgetNotificationAccountId d meta) (expandNotification d) oldNotification
        (meta.budgetconn.err (hist ++ cs) call, cs ++ [call])
      else (none, cs)

/-- Reads the subscribers of the matched notification into the resource data. -/
def resourceAwsBudgetsBudgetNotificationSubscriptionsRead (notification : Notification)
    (d : ResourceData) (meta : AWSClient) (hist : List Call) :
    Option Error × ResourceData × List Call :=
  let call := Call.DescribeSubscribersForNotification notification d.new.budget_name
    (budgetNotificationAccountId d meta)
  match meta.budgetconn.err hist call with
  | some err => (some err, d, [call])
  | none =>
    let output := meta.budgetconn.Subscribers hist call
    let emails := (output.filter
      (fun s => s.SubscriptionType == SubscriptionTypeEmail)).map (fun s => s.Address)
    let snsArns := (output.filter
      (fun s => s.SubscriptionType != SubscriptionTypeEmail &&
        s.SubscriptionType == SubscriptionTypeSns)).map (fun s => s.Address)
    let d1 := { d with new := { d.new with subscriber_email_addresses := SchemaSet.ofList emails } }
    let d2 := { d1 with new := { d1.new with subscriber_sns_topic_arns := SchemaSet.ofList snsArns } }
    (none, d2, [call])

/-- The loop of `resourceAwsBudgetsBudgetNotificationRead`: the first listed notification
that, with its defaults set, is the same as the expected one. -/
def findNotification (expectedNotification : Notification) :
    List Notification → Option Notification
  | [] => none
  | notification :: rest =>
    let notification := setNotificationDefaults notification
    if isSameNotification notification expectedNotification then some notification
    else findNotification expectedNotification rest

/-- The read operation. -/
def resourceAwsBudgetsBudgetNotificationRead (d : ResourceData) (meta : AWSClient)
    (hist : List Call) : Option Error × ResourceData × List Call :=
  let budgetName := d.new.budget_name
  let accountID := budgetNotificationAccountId d meta
  let call := Call.DescribeNotificationsForBudget budgetName accountID
  match meta.budgetconn.err hist call with
  | some err => (some err, d, [call])
  | none =>
    let expectedNotification := expandNotification d
    match findNotification expectedNotification (meta.budgetconn.Notifications hist call) with
    | some notification =>
      let d1 := { d with new := { d.new with account_id := accountID } }
      let d2 := { d1 with new := { d1.new with budget_name := budgetName } }
      let r := resourceAwsBudgetsBudgetNotificationSubscriptionsRead notification d2 meta
        (hist ++ [call])
      (r.1, r.2.1, call :: r.2.2)
    | none => (none, d.SetId "", [call])

/-- The create operation. `PrefixedUniqueId` is the id generator of the framework, which
appends a fresh suffix to the text it is given. -/
def resourceAwsBudgetsBudgetNotificationCreate (PrefixedUniqueId : String → String)
    (d : ResourceData) (meta : AWSClient) (hist : List Call) :
    Option Error × ResourceData × List Call :=
  let budgetName := d.new.budget_name
  let accountID := budgetNotificationAccountId d meta
  let subscribers := expandSubscribers d
  if subscribers.length = 0 then
    (some (Error.errorf "Notification must have at least one subscriber!"), d, [])
  else
    let call := Call.CreateNotification d.new.budget_name (budgetNotificationAccountId d meta)
      (expandNotification d) subscribers
    match meta.budgetconn.err hist call with
    | some err => (some err, d, [call])
    | none =>
      let d1 := d.SetId (PrefixedUniqueId (accountID ++ ":" ++ budgetName ++ ":s"))
      let r := resourceAwsBudgetsBudgetNotificationRead d1 meta (hist ++ [call])
      (r.1, r.2.1, call :: r.2.2)

/-- The delete operation. -/
def resourceAwsBudgetsBudgetNotificationDelete (d : ResourceData) (meta : AWSClient)
    (hist : List Call) : Option Error × ResourceData × List Call :=
  let call := Call.DeleteNotification d.new.budget_name (budgetNotificationAccountId d meta)
    (expandNotification d)
  match meta.budgetconn.err hist call with
  | some err => (some err, d, [call])
  | none => (none, d.SetId "", [call])

/-! ## The calls an update plans

What `resourceAwsBudgetsBudgetNotificationUpdate` issues when nothing fails, written as
plain lists, and the replay of such a list against the remote client. -/

/-- Issues the calls of a list one after the other and stops at the first that fails. -/
def runCalls (client : Budgets) : List Call → List Call → Option Error × List Call
  | [], _ => (none, [])
  | call :: rest, hist =>
    match client.err hist call with
    | some err => (some err, [call])
    | none =>
      let r := runCalls client rest (hist ++ [call])
      (r.1, call :: r.2)

/-- One `CreateSubscriber` call per address, keyed as the update keys it. -/
def addCalls (subscriptionType : String) (d : ResourceData) (meta : AWSClient)
    (addrs : List String) : List Call :=
  addrs.map (fun addr => Call.CreateSubscriber d.new.budget_name
    (budgetNotificationAccountId d meta) (expandNotification d)
    { SubscriptionType := subscriptionType, Address := addr })

/-- One `DeleteSubscriber` call per address, keyed as the update keys it. -/
def deleteCalls (subscriptionType : String) (d : ResourceData) (meta : AWSClient)
    (addrs : List String) : List Call :=
  addrs.map (fun addr => Call.DeleteSubscriber d.new.budget_name
    (budgetNotificationAccountId d meta) (expandNotification d)
    { SubscriptionType := subscriptionType, Address := addr })

/-- The subscriber calls of an update in which nothing fails. -/
def subscriberCalls (d : ResourceData) (meta : AWSClient) : List Call :=
  addCalls SubscriptionTypeEmail d meta
      (d.new.subscriber_email_addresses.Difference d.old.subscriber_email_addresses).items ++
    addCalls SubscriptionTypeSns d meta
      (d.new.subscriber_sns_topic_arns.Difference d.old.subscriber_sns_topic_arns).items ++
    deleteCalls SubscriptionTypeEmail d meta
      (d.old.subscriber_email_addresses.Difference d.new.subscriber_email_addresses).items ++
    deleteCalls SubscriptionTypeSns d meta
      (d.old.subscriber_sns_topic_arns.Difference d.new.subscriber_sns_topic_arns).items

/-- Whether one of the four fields of the comparison key has a change. -/
def keyChanged (d : ResourceData) : Bool :=
  d.HasChange "comparison_operator" || d.HasChange "threshold" ||
    d.HasChange "threshold_type" || d.HasChange "notification_type"

/-- The notification descriptor of the recorded state. -/
def oldNotification (d : ResourceData) : Notification :=
  { ComparisonOperator := d.old.comparison_operator
    Threshold := d.old.threshold
    ThresholdType := some d.old.threshold_type
    NotificationType := d.old.notification_type }

/-- The rule call of an update: one `UpdateNotification` when the key has a change. -/
def ruleCalls (d : ResourceData) (meta : AWSClient) : List Call :=
  if keyChanged d then
    [Call.UpdateNotification d.new.budget_name (budgetNotificationAccountId d meta)
      (expandNotification d) (oldNotification d)]
  else []

/-- All calls of an update that passes validation and in which nothing fails. -/
def updateCalls (d : ResourceData) (meta : AWSClient) : List Call :=
  subscriberCalls d meta ++ ruleCalls d meta

/-- The client that answers as `client` does but never fails. -/
def neverFails (client : Budgets) : Budgets := { client with err := fun _ _ => none }

/-- The provider configuration with a client that never fails. -/
def AWSClient.neverFails (meta : AWSClient) : AWSClient :=
  { meta with budgetconn := BudgetNotification.neverFails meta.budgetconn }

/-- The subscription kind a `CreateSubscriber` call adds to. -/
def Call.addKind : Call → Option String
  | Call.CreateSubscriber _ _ _ s => some s.SubscriptionType
  | _ => none

/-- The subscription kind a `DeleteSubscriber` call removes from. -/
def Call.removeKind : Call → Option String
  | Call.DeleteSubscriber _ _ _ s => some s.SubscriptionType
  | _ => none

/-- Whether the call is an `UpdateNotification`. -/
def Call.isUpdateNotification : Call → Bool
  | Call.UpdateNotification _ _ _ _ => true
  | _ => false

/-- Whether the call is a `CreateSubscriber` or a `DeleteSubscriber`. -/
def Call.isSubscriberCall : Call → Bool
  | Call.CreateSubscriber _ _ _ _ => true
  | Call.DeleteSubscriber _ _ _ _ => true
  | _ => false

/-- Whether the call is a `DescribeSubscribersForNotification`. -/
def Call.isDescribeSubscribers : Call → Bool
  | Call.DescribeSubscribersForNotification _ _ _ => true
  | _ => false

/-- The notification a subscriber call names as its key. -/
def Call.subscriberKey : Call → Option Notification
  | Call.CreateSubscriber _ _ n _ => some n
  | Call.DeleteSubscriber _ _ n _ => some n
  | _ => none

/-- The phase of an update a call belongs to: adding subscribers, removing subscribers,
updating the rule; the calls an update never issues come last. -/
def Call.phase : Call → Nat
  | Call.CreateSubscriber _ _ _ _ => 0
  | Call.DeleteSubscriber _ _ _ _ => 1
  | Call.UpdateNotification _ _ _ _ => 2
  | _ => 3

/-! ## Concrete records and clients -/

/-- The threshold `1000`. -/
def thousand : Float64 := ⟨0x408F400000000000⟩

/-- The threshold `2000`. -/
def twoThousand : Float64 := ⟨0x409F400000000000⟩

/-- The rule of the acceptance test with the given subscribers. -/
def attrsWith (emails topics : SchemaSet) : Attrs :=
  { budget_name := "tf-acc-1"
    account_id := ""
    comparison_operator := "GREATER_THAN"
    threshold := thousand
    threshold_type := ThresholdTypeAbsoluteValue
    notification_type := "FORECASTED"
    subscriber_email_addresses := emails
    subscriber_sns_topic_arns := topics }

/-- The set holding one address. -/
def SchemaSet.single (a : String) : SchemaSet := ⟨[a], List.nodup_singleton a⟩

/-- A client in which every call succeeds and every listing is empty. -/
def quietBudgets : Budgets :=
  { err := fun _ _ => none
    Notifications := fun _ _ => []
    Subscribers := fun _ _ => [] }

/-- A client in which every call fails. -/
def failingBudgets : Budgets :=
  { err := fun _ _ => some (Error.awserr "InternalErrorException" "try again")
    Notifications := fun _ _ => []
    Subscribers := fun _ _ => [] }

/-- A provider whose client never fails. -/
def quietMeta : AWSClient := { accountid := "123456789012", budgetconn := quietBudgets }

/-- A provider whose client always fails. -/
def failingMeta : AWSClient := { accountid := "123456789012", budgetconn := failingBudgets }

/-- A stored record with one email subscriber whose desired state has no subscriber. -/
def recordWithoutSubscribers : ResourceData :=
  { Id := "123456789012:tf-acc-1:s-0001"
    old := attrsWith (SchemaSet.single "a@x.com") SchemaSet.empty
    new := attrsWith SchemaSet.empty SchemaSet.empty }

/-- A stored record with one email subscriber and no pending change. -/
def recordUnchanged : ResourceData :=
  { Id := "123456789012:tf-acc-1:s-0001"
    old := attrsWith (SchemaSet.single "a@x.com") SchemaSet.empty
    new := attrsWith (SchemaSet.single "a@x.com") SchemaSet.empty }

/-- The listed descriptor of the acceptance-test rule at threshold `1000` with the
threshold type left out by the service. -/
def remoteUnset : Notification :=
  { ComparisonOperator := "GREATER_THAN"
    Threshold := thousand
    ThresholdType := none
    NotificationType := "FORECASTED" }

/-- A stored record whose rule has the given threshold type and one email subscriber. -/
def recordOfType (thresholdType : String) : ResourceData :=
  { Id := "123456789012:tf-acc-1:s-0001"
    old := { attrsWith (SchemaSet.single "a@x.com") SchemaSet.empty with
      threshold_type := thresholdType }
    new := { attrsWith (SchemaSet.single "a@x.com") SchemaSet.empty with
      threshold_type := thresholdType } }

/-- A client that lists one notification, of another rule, and never fails. -/
def otherRuleBudgets : Budgets :=
  { err := fun _ _ => none
    Notifications := fun _ _ => [{ remoteUnset with Threshold := twoThousand }]
    Subscribers := fun _ _ => [] }

/-- A provider whose client lists one notification of another rule. -/
def otherRuleMeta : AWSClient := { accountid := "123456789012", budgetconn := otherRuleBudgets }

/-- The rule of the acceptance test after all its parameters are changed, with the given
subscribers. -/
def changedAttrsWith (emails topics : SchemaSet) : Attrs :=
  { budget_name := "tf-acc-1"
    account_id := ""
    comparison_operator := "LESS_THAN"
    threshold := twoThousand
    threshold_type := ThresholdTypePercentage
    notification_type := "ACTUAL"
    subscriber_email_addresses := emails
    subscriber_sns_topic_arns := topics }

/-- The only email subscriber is swapped for another, same rule. -/
def recordSwapEmail : ResourceData :=
  { Id := "123456789012:tf-acc-1:s-0001"
    old := attrsWith (SchemaSet.single "a@x.com") SchemaSet.empty
    new := attrsWith (SchemaSet.single "b@x.com") SchemaSet.empty }

/-- A second email and a topic are added, same rule. -/
def recordAddEmailAndTopic : ResourceData :=
  { Id := "123456789012:tf-acc-1:s-0001"
    old := attrsWith (SchemaSet.single "a@x.com") SchemaSet.empty
    new := attrsWith ⟨["a@x.com", "c@x.com"], by decide⟩ (SchemaSet.single "arn:topic:1") }

/-- The rule is changed and the desired state has no subscriber. -/
def recordRuleChangedNoSubscribers : ResourceData :=
  { Id := "123456789012:tf-acc-1:s-0001"
    old := attrsWith (SchemaSet.single "a@x.com") SchemaSet.empty
    new := changedAttrsWith SchemaSet.empty SchemaSet.empty }

/-- The rule is changed and the only email subscriber is swapped for another. -/
def recordRuleAndSwap : ResourceData :=
  { Id := "123456789012:tf-acc-1:s-0001"
    old := attrsWith (SchemaSet.single "a@x.com") SchemaSet.empty
    new := changedAttrsWith (SchemaSet.single "b@x.com") SchemaSet.empty }

/-- A client in which removing a subscriber fails and every other call succeeds. -/
def removeFailsBudgets : Budgets :=
  { err := fun _ c =>
      match c with
      | Call.DeleteSubscriber _ _ _ _ => some (Error.awserr "InternalErrorException" "try again")
      | _ => none
    Notifications := fun _ _ => []
    Subscribers := fun _ _ => [] }

/-- A provider whose client fails to remove subscribers. -/
def removeFailsMeta : AWSClient :=
  { accountid := "123456789012", budgetconn := removeFailsBudgets }

/-! ## Lemmas on the replay -/

theorem runCalls_append (client : Budgets) (a b hist : List Call) :
    runCalls client (a ++ b) hist =
      match runCalls client a hist with
      | (some err, cs) => (some err, cs)
      | (none, cs) =>
        ((runCalls client b (hist ++ cs)).1, cs ++ (runCalls client b (hist ++ cs)).2) := by
  induction a generalizing hist with
  | nil => simp [runCalls]
  | cons call rest ih =>
    simp only [List.cons_append, runCalls]
    cases h : client.err hist call with
    | some err => simp
    | none =>
      have h3 := ih (hist ++ [call])
      cases h2 : runCalls client rest (hist ++ [call]) with
      | mk e cs =>
        rw [h2] at h3
        cases e <;> simp [h3]

theorem runCalls_isPrefix (client : Budgets) (l hist : List Call) :
    (runCalls client l hist).2 <+: l := by
  induction l generalizing hist with
  | nil => simp [runCalls]
  | cons call rest ih =>
    simp only [runCalls]
    cases h1 : client.err hist call with
    | some err => simp
    | none => simpa using ih (hist ++ [call])

theorem runCalls_neverFails (client : Budgets) (l hist : List Call) :
    runCalls (neverFails client) l hist = (none, l) := by
  induction l generalizing hist with
  | nil => simp [runCalls]
  | cons call rest ih =>
    have h : (neverFails client).err hist call = none := rfl
    simp [runCalls, h, ih]

/-! ## The update replays its plan -/

theorem addSubscriberLoop_eq_runCalls (subscriptionType : String) (d : ResourceData)
    (meta : AWSClient) (addrs : List String) (hist : List Call) :
    addSubscriberLoop subscriptionType d meta addrs hist =
      runCalls meta.budgetconn (addCalls subscriptionType d meta addrs) hist := by
  induction addrs generalizing hist with
  | nil => simp [addSubscriberLoop, addCalls, runCalls]
  | cons addr rest ih =>
    simp only [addSubscriberLoop, addCalls, List.map_cons, runCalls]
    cases h : meta.budgetconn.err hist (Call.CreateSubscriber d.new.budget_name
      (budgetNotificationAccountId d meta) (expandNotification d)
      { SubscriptionType := subscriptionType, Address := addr }) with
    | some err => rfl
    | none => simp only [ih, addCalls]

theorem deleteSubscriberLoop_eq_runCalls (subscriptionType : String) (d : ResourceData)
    (meta : AWSClient) (addrs : List String) (hist : List Call) :
    deleteSubscriberLoop subscriptionType d meta addrs hist =
      runCalls meta.budgetconn (deleteCalls subscriptionType d meta addrs) hist := by
  induction addrs generalizing hist with
  | nil => simp [deleteSubscriberLoop, deleteCalls, runCalls]
  | cons addr rest ih =>
    simp only [deleteSubscriberLoop, deleteCalls, List.map_cons, runCalls]
    cases h : meta.budgetconn.err hist (Call.DeleteSubscriber d.new.budget_name
      (budgetNotificationAccountId d meta) (expandNotification d)
      { SubscriptionType := subscriptionType, Address := addr }) with
    | some err => rfl
    | none => simp only [ih, deleteCalls]

theorem diffSubscriptionList_email (d : ResourceData) :
    diffSubscriptionList d "subscriber_email_addresses" =
      (d.old.subscriber_email_addresses.Difference d.new.subscriber_email_addresses,
        d.new.subscriber_email_addresses.Difference d.old.subscriber_email_addresses) := by
  simp [diffSubscriptionList, ResourceData.GetChangeSet]

theorem diffSubscriptionList_topic (d : ResourceData) :
    diffSubscriptionList d "subscriber_sns_topic_arns" =
      (d.old.subscriber_sns_topic_arns.Difference d.new.subscriber_sns_topic_arns,
        d.new.subscriber_sns_topic_arns.Difference d.old.subscriber_sns_topic_arns) := by
  simp [diffSubscriptionList, ResourceData.GetChangeSet]

theorem updateSubscriptions_eq_runCalls (d : ResourceData) (meta : AWSClient)
    (hist : List Call) :
    resourceAwsBudgetsBudgetNotificationUpdateSubscriptions d meta hist =
      runCalls meta.budgetconn (subscriberCalls d meta) hist := by
  simp only [resourceAwsBudgetsBudgetNotificationUpdateSubscriptions,
    diffSubscriptionList_email, diffSubscriptionList_topic,
    resourceAwsBudgetsBudgetNotificationAddSubscriber,
    resourceAwsBudgetsBudgetNotificationDeleteSubscriber, SchemaSet.List,
    addSubscriberLoop_eq_runCalls, deleteSubscriberLoop_eq_runCalls, subscriberCalls,
    runCalls_append, List.append_assoc]
  rcases runCalls meta.budgetconn (addCalls SubscriptionTypeEmail d meta _) hist
    with ⟨_ | e1, cs1⟩
  · simp only
    rcases runCalls meta.budgetconn (addCalls SubscriptionTypeSns d meta _) (hist ++ cs1)
      with ⟨_ | e2, cs2⟩
    · simp only
      rcases runCalls meta.budgetconn (deleteCalls SubscriptionTypeEmail d meta _)
        (hist ++ (cs1 ++ cs2)) with ⟨_ | e3, cs3⟩
      · simp only
        rcases runCalls meta.budgetconn (deleteCalls SubscriptionTypeSns d meta _)
          (hist ++ (cs1 ++ (cs2 ++ cs3))) with ⟨_ | e4, cs4⟩ <;> rfl
      · rfl
    · rfl
  · rfl

theorem expandSubscribers_eq_nil_iff (d : ResourceData) :
    expandSubscribers d = [] ↔
      d.new.subscriber_email_addresses.items = [] ∧
        d.new.subscriber_sns_topic_arns.items = [] := by
  have h1 : expandSubscribersType d "subscriber_sns_topic_arns" SubscriptionTypeSns = [] ↔
      d.new.subscriber_sns_topic_arns.items = [] := by
    cases h : d.new.subscriber_sns_topic_arns.items <;>
      simp [expandSubscribersType, ResourceData.GetOkSet, ResourceData.GetChangeSet,
        SchemaSet.Len, expandStringSet, SchemaSet.List, h]
  have h2 : expandSubscribersType d "subscriber_email_addresses" SubscriptionTypeEmail = [] ↔
      d.new.subscriber_email_addresses.items = [] := by
    cases h : d.new.subscriber_email_addresses.items <;>
      simp [expandSubscribersType, ResourceData.GetOkSet, ResourceData.GetChangeSet,
        SchemaSet.Len, expandStringSet, SchemaSet.List, h]
  simp only [expandSubscribers, List.append_eq_nil, h1, h2]
  tauto

theorem update_eq_runCalls (d : ResourceData) (meta : AWSClient) (hist : List Call)
    (hne : expandSubscribers d ≠ []) :
    resourceAwsBudgetsBudgetNotificationUpdate d meta hist =
      runCalls meta.budgetconn (updateCalls d meta) hist := by
  have hlen : ¬ (expandSubscribers d).length = 0 := by
    simpa [List.length_eq_zero] using hne
  simp only [resourceAwsBudgetsBudgetNotificationUpdate, hlen, if_false,
    updateSubscriptions_eq_runCalls, updateCalls, runCalls_append]
  rcases runCalls meta.budgetconn (subscriberCalls d meta) hist with ⟨_ | e, cs⟩
  · simp only [ruleCalls, keyChanged, oldNotification]
    split <;> simp [runCalls]
    cases meta.budgetconn.err (hist ++ cs) _ <;> simp
  · rfl

theorem update_of_nil (d : ResourceData) (meta : AWSClient) (hist : List Call)
    (h : expandSubscribers d = []) :
    resourceAwsBudgetsBudgetNotificationUpdate d meta hist =
      (some (Error.errorf "Notification must have at least one subscriber!"), []) := by
  simp [resourceAwsBudgetsBudgetNotificationUpdate, h]

/-! ## Validation of the subscribers -/

/-- C1: when the desired record has no email address and no topic address, create and
update both return the error "Notification must have at least one subscriber!" and issue
no remote call; create leaves the resource data as it was. -/
theorem create_update_reject_empty_subscribers (PrefixedUniqueId : String → String)
    (d : ResourceData) (meta : AWSClient) (hist : List Call)
    (hemail : d.new.subscriber_email_addresses.items = [])
    (htopic : d.new.subscriber_sns_topic_arns.items = []) :
    resourceAwsBudgetsBudgetNotificationCreate PrefixedUniqueId d meta hist =
        (some (Error.errorf "Notification must have at least one subscriber!"), d, []) ∧
      resourceAwsBudgetsBudgetNotificationUpdate d meta hist =
        (some (Error.errorf "Notification must have at least one subscriber!"), []) := by
  have h : expandSubscribers d = [] := (expandSubscribers_eq_nil_iff d).2 ⟨hemail, htopic⟩
  constructor
  · simp [resourceAwsBudgetsBudgetNotificationCreate, h]
  · exact update_of_nil d meta hist h

theorem create_update_reject_empty_subscribers_witness :
    (recordWithoutSubscribers.new.subscriber_email_addresses.items = [] ∧
      recordWithoutSubscribers.new.subscriber_sns_topic_arns.items = []) ∧
    (resourceAwsBudgetsBudgetNotificationCreate (fun p => p ++ "-0001")
        recordWithoutSubscribers quietMeta [] =
        (some (Error.errorf "Notification must have at least one subscriber!"),
          recordWithoutSubscribers, []) ∧
      resourceAwsBudgetsBudgetNotificationUpdate recordWithoutSubscribers quietMeta [] =
        (some (Error.errorf "Notification must have at least one subscriber!"), [])) :=
  ⟨⟨rfl, rfl⟩,
    create_update_reject_empty_subscribers (fun p => p ++ "-0001")
      recordWithoutSubscribers quietMeta [] rfl rfl⟩

/-! ## Delete -/

/-- C3, as the code has it: delete issues exactly one `DeleteNotification` call keyed by
the descriptor of the record and returns what that call returns; the resource id is
cleared when the call succeeds and the resource data is left as it was when it fails. -/
theorem delete_one_call_id_cleared_on_success (d : ResourceData) (meta : AWSClient)
    (hist : List Call) :
    (resourceAwsBudgetsBudgetNotificationDelete d meta hist).2.2 =
        [Call.DeleteNotification d.new.budget_name (budgetNotificationAccountId d meta)
          (expandNotification d)] ∧
      (resourceAwsBudgetsBudgetNotificationDelete d meta hist).1 =
        meta.budgetconn.err hist (Call.DeleteNotification d.new.budget_name
          (budgetNotificationAccountId d meta) (expandNotification d)) ∧
      (resourceAwsBudgetsBudgetNotificationDelete d meta hist).2.1 =
        (match meta.budgetconn.err hist (Call.DeleteNotification d.new.budget_name
            (budgetNotificationAccountId d meta) (expandNotification d)) with
          | none => { d with Id := "" }
          | some _ => d) := by
  simp only [resourceAwsBudgetsBudgetNotificationDelete, ResourceData.SetId]
  cases meta.budgetconn.err hist (Call.DeleteNotification d.new.budget_name
    (budgetNotificationAccountId d meta) (expandNotification d)) <;> simp

/-- C3 fails as stated: when the remote call fails, delete returns the error and the
resource id is still the one the record had. -/
theorem delete_keeps_id_when_remote_fails :
    ¬ ((resourceAwsBudgetsBudgetNotificationDelete recordUnchanged failingMeta []).2.1.Id
        = "") ∧
      (resourceAwsBudgetsBudgetNotificationDelete recordUnchanged failingMeta []).1 =
        some (Error.awserr "InternalErrorException" "try again") := by
  constructor
  · decide
  · rfl

/-! ## The difference of two subscriber sets -/

/-- C5: when the addresses under `key` change from `previous` to `desired`,
`diffSubscriptionList` returns `previous` minus `desired` as the set to remove and
`desired` minus `previous` as the set to add; the two are disjoint, `previous` without
the removed ones and with the added ones is `desired`, and an address in both `previous`
and `desired` is in neither. -/
theorem diffSubscriptionList_minimal (d : ResourceData) (key : String)
    (previous desired : SchemaSet)
    (h : d.GetChangeSet key = (some previous, some desired)) :
    (diffSubscriptionList d key).1.items.toFinset =
        previous.items.toFinset \ desired.items.toFinset ∧
      (diffSubscriptionList d key).2.items.toFinset =
        desired.items.toFinset \ previous.items.toFinset ∧
      Disjoint (diffSubscriptionList d key).2.items.toFinset
        (diffSubscriptionList d key).1.items.toFinset ∧
      (previous.items.toFinset \ (diffSubscriptionList d key).1.items.toFinset) ∪
        (diffSubscriptionList d key).2.items.toFinset = desired.items.toFinset ∧
      ∀ a, a ∈ previous.items → a ∈ desired.items →
        a ∉ (diffSubscriptionList d key).1.items ∧
          a ∉ (diffSubscriptionList d key).2.items := by
  have h1 : diffSubscriptionList d key =
      (previous.Difference desired, desired.Difference previous) := by
    simp [diffSubscriptionList, h]
  rw [h1]
  simp only [SchemaSet.Difference]
  refine ⟨?_, ?_, ?_, ?_, ?_⟩
  · ext a
    simp
  · ext a
    simp
  · rw [Finset.disjoint_left]
    intro a
    simp only [List.mem_toFinset, List.mem_filter, decide_eq_true_eq]
    tauto
  · ext a
    simp only [Finset.mem_union, Finset.mem_sdiff, List.mem_toFinset, List.mem_filter,
      decide_eq_true_eq]
    tauto
  · intro a ha hb
    simp [ha, hb]

theorem diffSubscriptionList_minimal_witness :
    recordWithoutSubscribers.GetChangeSet "subscriber_email_addresses" =
        (some (SchemaSet.single "a@x.com"), some SchemaSet.empty) ∧
      (diffSubscriptionList recordWithoutSubscribers
          "subscriber_email_addresses").1.items.toFinset =
        (SchemaSet.single "a@x.com").items.toFinset \ SchemaSet.empty.items.toFinset :=
  ⟨rfl, (diffSubscriptionList_minimal recordWithoutSubscribers "subscriber_email_addresses"
    (SchemaSet.single "a@x.com") SchemaSet.empty rfl).1⟩

/-! ## Read -/

theorem findNotification_eq_none_iff (expected : Notification) (l : List Notification) :
    findNotification expected l = none ↔
      ∀ n ∈ l, isSameNotification (setNotificationDefaults n) expected = false := by
  induction l with
  | nil => simp [findNotification]
  | cons n rest ih =>
    simp only [findNotification, List.mem_cons, forall_eq_or_imp]
    cases h : isSameNotification (setNotificationDefaults n) expected <;> simp [ih]

theorem isSameNotification_defaults_iff (n : Notification) (d : ResourceData) :
    isSameNotification (setNotificationDefaults n) (expandNotification d) = true ↔
      (n.ThresholdType.getD ThresholdTypePercentage = d.new.threshold_type ∧
        float64Eq n.Threshold d.new.threshold = true ∧
        n.NotificationType = d.new.notification_type ∧
        n.ComparisonOperator = d.new.comparison_operator) := by
  cases n with
  | mk op thr ty nt =>
    cases ty <;>
      simp [isSameNotification, setNotificationDefaults, expandNotification, and_assoc]

/-- C7: when listing the notifications succeeds and no listed descriptor, with its
defaults set, has the comparison key of the record (so also when the list is empty), read
returns no error, clears the resource id and issues the listing call only. -/
theorem read_absent_when_no_match (d : ResourceData) (meta : AWSClient) (hist : List Call)
    (hlist : meta.budgetconn.err hist (Call.DescribeNotificationsForBudget
      d.new.budget_name (budgetNotificationAccountId d meta)) = none)
    (hno : ∀ n ∈ meta.budgetconn.Notifications hist (Call.DescribeNotificationsForBudget
        d.new.budget_name (budgetNotificationAccountId d meta)),
      isSameNotification (setNotificationDefaults n) (expandNotification d) = false) :
    resourceAwsBudgetsBudgetNotificationRead d meta hist =
      (none, { d with Id := "" },
        [Call.DescribeNotificationsForBudget d.new.budget_name
          (budgetNotificationAccountId d meta)]) := by
  have h := (findNotification_eq_none_iff (expandNotification d) _).2 hno
  simp only [resourceAwsBudgetsBudgetNotificationRead, hlist, h, ResourceData.SetId]

theorem read_absent_when_no_match_witness :
    resourceAwsBudgetsBudgetNotificationRead recordUnchanged otherRuleMeta [] =
        (none, { recordUnchanged with Id := "" },
          [Call.DescribeNotificationsForBudget "tf-acc-1" "123456789012"]) ∧
      resourceAwsBudgetsBudgetNotificationRead recordUnchanged quietMeta [] =
        (none, { recordUnchanged with Id := "" },
          [Call.DescribeNotificationsForBudget "tf-acc-1" "123456789012"]) :=
  ⟨read_absent_when_no_match recordUnchanged otherRuleMeta [] rfl (by decide),
    read_absent_when_no_match recordUnchanged quietMeta [] rfl (by decide)⟩

theorem subscriptionsRead_calls (n : Notification) (d : ResourceData) (meta : AWSClient)
    (hist : List Call) :
    (resourceAwsBudgetsBudgetNotificationSubscriptionsRead n d meta hist).2.2 =
      [Call.DescribeSubscribersForNotification n d.new.budget_name
        (budgetNotificationAccountId d meta)] := by
  simp only [resourceAwsBudgetsBudgetNotificationSubscriptionsRead]
  cases meta.budgetconn.err hist (Call.DescribeSubscribersForNotification n
    d.new.budget_name (budgetNotificationAccountId d meta)) <;> rfl

/-- C6: read goes on to list the subscribers of a matched notification exactly when
listing the notifications succeeds and some listed descriptor, with a missing threshold
type read as `PERCENTAGE`, equals the descriptor of the record on all four fields of the
comparison key (`==` of the language on each). In particular a listed descriptor without
threshold type whose three other fields equal those of the record is matched when the
record has threshold type `PERCENTAGE` and is not when it has `ABSOLUTE_VALUE`. -/
theorem read_identity_match (d : ResourceData) (meta : AWSClient) (hist : List Call) :
    ((∃ c ∈ (resourceAwsBudgetsBudgetNotificationRead d meta hist).2.2,
        c.isDescribeSubscribers = true) ↔
      (meta.budgetconn.err hist (Call.DescribeNotificationsForBudget d.new.budget_name
          (budgetNotificationAccountId d meta)) = none ∧
        ∃ n ∈ meta.budgetconn.Notifications hist (Call.DescribeNotificationsForBudget
            d.new.budget_name (budgetNotificationAccountId d meta)),
          n.ThresholdType.getD ThresholdTypePercentage = d.new.threshold_type ∧
            float64Eq n.Threshold d.new.threshold = true ∧
            n.NotificationType = d.new.notification_type ∧
            n.ComparisonOperator = d.new.comparison_operator)) ∧
      ∀ remote : Notification, remote.ThresholdType = none →
        float64Eq remote.Threshold d.new.threshold = true →
        remote.NotificationType = d.new.notification_type →
        remote.ComparisonOperator = d.new.comparison_operator →
        (d.new.threshold_type = ThresholdTypePercentage →
          findNotification (expandNotification d) [remote] =
            some { remote with ThresholdType := some ThresholdTypePercentage }) ∧
        (d.new.threshold_type = ThresholdTypeAbsoluteValue →
          findNotification (expandNotification d) [remote] = none) := by
  constructor
  · simp only [resourceAwsBudgetsBudgetNotificationRead]
    cases herr : meta.budgetconn.err hist (Call.DescribeNotificationsForBudget
      d.new.budget_name (budgetNotificationAccountId d meta)) with
    | some e => simp [Call.isDescribeSubscribers]
    | none =>
      cases hfind : findNotification (expandNotification d)
        (meta.budgetconn.Notifications hist (Call.DescribeNotificationsForBudget
          d.new.budget_name (budgetNotificationAccountId d meta))) with
      | none =>
        have hno := (findNotification_eq_none_iff _ _).1 hfind
        simp only [List.mem_singleton, exists_eq_left, Call.isDescribeSubscribers,
          true_and, Bool.false_eq_true, false_iff, not_exists, not_and]
        intro n hn h1 h2 h3 h4
        have := (isSameNotification_defaults_iff n d).2 ⟨h1, h2, h3, h4⟩
        rw [hno n hn] at this
        exact Bool.false_ne_true this
      | some found =>
        have hex : ¬ ∀ n ∈ meta.budgetconn.Notifications hist
            (Call.DescribeNotificationsForBudget d.new.budget_name
              (budgetNotificationAccountId d meta)),
            isSameNotification (setNotificationDefaults n) (expandNotification d) = false := by
          intro hall
          rw [(findNotification_eq_none_iff _ _).2 hall] at hfind
          exact Option.noConfusion hfind
        simp only [not_forall, Bool.not_eq_false] at hex
        obtain ⟨n, hn, hsame⟩ := hex
        simp only [subscriptionsRead_calls, true_and]
        constructor
        · intro _
          exact ⟨n, hn, (isSameNotification_defaults_iff n d).1 hsame⟩
        · intro _
          exact ⟨_, List.mem_cons_of_mem _ (List.mem_singleton_self _), rfl⟩
  · intro remote hty hthr hnt hop
    cases remote with
    | mk op thr ty nt =>
      simp only at hty hthr hnt hop
      subst hty
      constructor
      · intro hp
        simp [findNotification, setNotificationDefaults, isSameNotification,
          expandNotification, hthr, hnt, hop, hp]
      · intro ha
        simp [findNotification, setNotificationDefaults, isSameNotification,
          expandNotification, ha, ThresholdTypePercentage, ThresholdTypeAbsoluteValue]

theorem read_identity_match_witness :
    findNotification (expandNotification (recordOfType ThresholdTypePercentage))
        [remoteUnset] =
        some { remoteUnset with ThresholdType := some ThresholdTypePercentage } ∧
      findNotification (expandNotification (recordOfType ThresholdTypeAbsoluteValue))
        [remoteUnset] = none :=
  ⟨((read_identity_match (recordOfType ThresholdTypePercentage) quietMeta []).2
      remoteUnset rfl (by decide) rfl rfl).1 rfl,
    ((read_identity_match (recordOfType ThresholdTypeAbsoluteValue) quietMeta []).2
      remoteUnset rfl (by decide) rfl rfl).2 rfl⟩

/-! ## The calls of an update, whatever the remote answers -/

theorem phase_of_mem_addCalls (ty : String) (d : ResourceData) (meta : AWSClient)
    (addrs : List String) (c : Call) (h : c ∈ addCalls ty d meta addrs) :
    c.phase = 0 ∧ c.addKind = some ty ∧ c.subscriberKey = some (expandNotification d) := by
  simp only [addCalls, List.mem_map] at h
  obtain ⟨a, _, rfl⟩ := h
  simp [Call.phase, Call.addKind, Call.subscriberKey]

theorem phase_of_mem_deleteCalls (ty : String) (d : ResourceData) (meta : AWSClient)
    (addrs : List String) (c : Call) (h : c ∈ deleteCalls ty d meta addrs) :
    c.phase = 1 ∧ c.removeKind = some ty ∧ c.subscriberKey = some (expandNotification d) := by
  simp only [deleteCalls, List.mem_map] at h
  obtain ⟨a, _, rfl⟩ := h
  simp [Call.phase, Call.removeKind, Call.subscriberKey]

theorem phase_of_mem_ruleCalls (d : ResourceData) (meta : AWSClient) (c : Call)
    (h : c ∈ ruleCalls d meta) : c.phase = 2 := by
  simp only [ruleCalls] at h
  split at h
  · simp only [List.mem_singleton] at h
    subst h
    rfl
  · simp at h

theorem mem_subscriberCalls (d : ResourceData) (meta : AWSClient) (c : Call)
    (h : c ∈ subscriberCalls d meta) :
    c.phase ≤ 1 ∧ c.isSubscriberCall = true ∧
      c.subscriberKey = some (expandNotification d) := by
  simp only [subscriberCalls, List.mem_append] at h
  rcases h with ((h | h) | h) | h
  · have := phase_of_mem_addCalls _ _ _ _ _ h
    cases c <;> simp_all [Call.phase, Call.isSubscriberCall]
  · have := phase_of_mem_addCalls _ _ _ _ _ h
    cases c <;> simp_all [Call.phase, Call.isSubscriberCall]
  · have := phase_of_mem_deleteCalls _ _ _ _ _ h
    cases c <;> simp_all [Call.phase, Call.isSubscriberCall]
  · have := phase_of_mem_deleteCalls _ _ _ _ _ h
    cases c <;> simp_all [Call.phase, Call.isSubscriberCall]

theorem updateCalls_sorted (d : ResourceData) (meta : AWSClient) :
    (updateCalls d meta).Pairwise (fun a b => a.phase ≤ b.phase) := by
  have hconst : ∀ (l : List Call) (k : Nat), (∀ c ∈ l, c.phase = k) →
      l.Pairwise (fun a b => a.phase ≤ b.phase) := by
    intro l k hl
    apply List.pairwise_of_forall_mem_list
    intro a ha b hb
    rw [hl a ha, hl b hb]
  simp only [updateCalls, subscriberCalls, List.pairwise_append, List.mem_append]
  refine ⟨⟨⟨⟨?_, ?_, ?_⟩, ?_, ?_⟩, ?_, ?_⟩, ?_, ?_⟩
  · exact hconst _ 0 (fun c hc => (phase_of_mem_addCalls _ _ _ _ c hc).1)
  · exact hconst _ 0 (fun c hc => (phase_of_mem_addCalls _ _ _ _ c hc).1)
  · intro a ha b hb
    rw [(phase_of_mem_addCalls _ _ _ _ a ha).1, (phase_of_mem_addCalls _ _ _ _ b hb).1]
  · exact hconst _ 1 (fun c hc => (phase_of_mem_deleteCalls _ _ _ _ c hc).1)
  · intro a ha b hb
    rw [(phase_of_mem_deleteCalls _ _ _ _ b hb).1]
    rcases ha with ha | ha <;> rw [(phase_of_mem_addCalls _ _ _ _ a ha).1] <;> decide
  · exact hconst _ 1 (fun c hc => (phase_of_mem_deleteCalls _ _ _ _ c hc).1)
  · intro a ha b hb
    rw [(phase_of_mem_deleteCalls _ _ _ _ b hb).1]
    rcases ha with (ha | ha) | ha
    · rw [(phase_of_mem_addCalls _ _ _ _ a ha).1]; decide
    · rw [(phase_of_mem_addCalls _ _ _ _ a ha).1]; decide
    · rw [(phase_of_mem_deleteCalls _ _ _ _ a ha).1]
  · exact hconst _ 2 (fun c hc => phase_of_mem_ruleCalls _ _ c hc)
  · intro a ha b hb
    rw [phase_of_mem_ruleCalls _ _ b hb]
    rcases ha with ((ha | ha) | ha) | ha
    · rw [(phase_of_mem_addCalls _ _ _ _ a ha).1]; decide
    · rw [(phase_of_mem_addCalls _ _ _ _ a ha).1]; decide
    · rw [(phase_of_mem_deleteCalls _ _ _ _ a ha).1]; decide
    · rw [(phase_of_mem_deleteCalls _ _ _ _ a ha).1]; decide

theorem update_trace_isPrefix (d : ResourceData) (meta : AWSClient) (hist : List Call) :
    (resourceAwsBudgetsBudgetNotificationUpdate d meta hist).2 <+: updateCalls d meta := by
  by_cases h : expandSubscribers d = []
  · rw [update_of_nil d meta hist h]
    exact List.nil_prefix
  · rw [update_eq_runCalls d meta hist h]
    exact runCalls_isPrefix _ _ _

theorem update_trace_sorted (d : ResourceData) (meta : AWSClient) (hist : List Call) :
    (resourceAwsBudgetsBudgetNotificationUpdate d meta hist).2.Pairwise
      (fun a b => a.phase ≤ b.phase) :=
  (updateCalls_sorted d meta).sublist (update_trace_isPrefix d meta hist).sublist

/-! ## Order of the subscriber calls -/

/-- C4: in the calls of any update, whatever the remote answers, no `DeleteSubscriber`
call of a kind comes before a `CreateSubscriber` call of that kind. -/
theorem update_adds_before_removes (d : ResourceData) (meta : AWSClient)
    (hist : List Call) :
    (resourceAwsBudgetsBudgetNotificationUpdate d meta hist).2.Pairwise
      (fun earlier later =>
        ∀ kind, earlier.removeKind = some kind → later.addKind ≠ some kind) := by
  refine (update_trace_sorted d meta hist).imp ?_
  intro a b hab kind ha hb
  cases a <;> cases b <;> simp_all [Call.phase, Call.removeKind, Call.addKind]

/-! ## Failure of a remote call during an update -/

theorem runCalls_failure (client : Budgets) (l hist pre post : List Call) (call : Call)
    (e : Error) (htrace : (runCalls client l hist).2 = pre ++ call :: post)
    (hfail : client.err (hist ++ pre) call = some e) :
    post = [] ∧ (runCalls client l hist).1 = some e := by
  induction l generalizing hist pre with
  | nil => simp [runCalls] at htrace
  | cons x rest ih =>
    simp only [runCalls] at htrace ⊢
    cases hx : client.err hist x with
    | some e1 =>
      simp only [hx] at htrace ⊢
      cases pre with
      | nil =>
        simp only [List.nil_append, List.cons.injEq] at htrace
        obtain ⟨rfl, hpost⟩ := htrace
        simp only [List.append_nil] at hfail
        rw [hx] at hfail
        exact ⟨hpost.symm, hfail⟩
      | cons p pre1 =>
        simp at htrace
    | none =>
      simp only [hx] at htrace ⊢
      cases pre with
      | nil =>
        simp only [List.nil_append, List.cons.injEq] at htrace
        obtain ⟨rfl, _⟩ := htrace
        simp only [List.append_nil] at hfail
        rw [hx] at hfail
        exact Option.noConfusion hfail
      | cons p pre1 =>
        simp only [List.cons_append, List.cons.injEq] at htrace
        obtain ⟨rfl, htail⟩ := htrace
        exact ih (hist ++ [x]) pre1 htail (by simpa using hfail)

/-- C9: the calls an update issues are an initial segment of the calls the same update
issues against a remote that never fails; and when one of the calls it issued failed, that
call is the last one it issued and the error of that call is what the update returns. -/
theorem update_stops_at_first_failure (d : ResourceData) (meta : AWSClient)
    (hist : List Call) :
    (resourceAwsBudgetsBudgetNotificationUpdate d meta hist).2 <+:
        (resourceAwsBudgetsBudgetNotificationUpdate d meta.neverFails hist).2 ∧
      ∀ (pre post : List Call) (call : Call) (e : Error),
        (resourceAwsBudgetsBudgetNotificationUpdate d meta hist).2 = pre ++ call :: post →
        meta.budgetconn.err (hist ++ pre) call = some e →
        post = [] ∧ (resourceAwsBudgetsBudgetNotificationUpdate d meta hist).1 = some e := by
  by_cases h : expandSubscribers d = []
  · simp [update_of_nil d _ hist h]
  · constructor
    · have hplan : updateCalls d meta.neverFails = updateCalls d meta := rfl
      have hall : (resourceAwsBudgetsBudgetNotificationUpdate d meta.neverFails hist).2 =
          updateCalls d meta := by
        rw [update_eq_runCalls d meta.neverFails hist h, hplan]
        exact congrArg Prod.snd (runCalls_neverFails meta.budgetconn _ hist)
      rw [hall]
      exact update_trace_isPrefix d meta hist
    · intro pre post call e htrace hfail
      rw [update_eq_runCalls d meta hist h] at htrace ⊢
      exact runCalls_failure _ _ _ _ _ _ _ htrace hfail

theorem update_stops_at_first_failure_witness :
    (resourceAwsBudgetsBudgetNotificationUpdate recordRuleAndSwap removeFailsMeta []).1 =
        some (Error.awserr "InternalErrorException" "try again") ∧
      (resourceAwsBudgetsBudgetNotificationUpdate recordRuleAndSwap removeFailsMeta []).2 =
        [Call.CreateSubscriber "tf-acc-1" "123456789012"
            (expandNotification recordRuleAndSwap) ⟨"EMAIL", "b@x.com"⟩,
          Call.DeleteSubscriber "tf-acc-1" "123456789012"
            (expandNotification recordRuleAndSwap) ⟨"EMAIL", "a@x.com"⟩] :=
  ⟨((update_stops_at_first_failure recordRuleAndSwap removeFailsMeta []).2
      [Call.CreateSubscriber "tf-acc-1" "123456789012"
        (expandNotification recordRuleAndSwap) ⟨"EMAIL", "b@x.com"⟩] []
      (Call.DeleteSubscriber "tf-acc-1" "123456789012"
        (expandNotification recordRuleAndSwap) ⟨"EMAIL", "a@x.com"⟩)
      (Error.awserr "InternalErrorException" "try again") rfl rfl).2, rfl⟩

/-! ## The rule call of an update -/

theorem keyChanged_iff (d : ResourceData) :
    keyChanged d = true ↔
      (d.old.comparison_operator ≠ d.new.comparison_operator ∨
        float64Eq d.old.threshold d.new.threshold = false ∨
        d.old.threshold_type ≠ d.new.threshold_type ∨
        d.old.notification_type ≠ d.new.notification_type) := by
  simp [keyChanged, ResourceData.HasChange, or_assoc]

theorem updateSubscriptions_trace (d : ResourceData) (meta : AWSClient) (hist : List Call)
    (c : Call)
    (h : c ∈ (resourceAwsBudgetsBudgetNotificationUpdateSubscriptions d meta hist).2) :
    c.isSubscriberCall = true ∧ c.subscriberKey = some (expandNotification d) := by
  rw [updateSubscriptions_eq_runCalls] at h
  exact (mem_subscriberCalls d meta c ((runCalls_isPrefix _ _ _).subset h)).2

theorem not_isUpdateNotification_of_isSubscriberCall (c : Call)
    (h : c.isSubscriberCall = true) : c.isUpdateNotification = false := by
  cases c <;> simp_all [Call.isSubscriberCall, Call.isUpdateNotification]

/-- C2, as the code has it: an update issues an `UpdateNotification` call exactly when the
desired record has a subscriber, every subscriber call of the update succeeds, and at
least one of the four fields of the comparison key differs between the previous and the
desired record. -/
theorem update_rule_call_iff (d : ResourceData) (meta : AWSClient) (hist : List Call) :
    (∃ c ∈ (resourceAwsBudgetsBudgetNotificationUpdate d meta hist).2,
        c.isUpdateNotification = true) ↔
      ((d.new.subscriber_email_addresses.items ≠ [] ∨
          d.new.subscriber_sns_topic_arns.items ≠ []) ∧
        (resourceAwsBudgetsBudgetNotificationUpdateSubscriptions d meta hist).1 = none ∧
        (d.old.comparison_operator ≠ d.new.comparison_operator ∨
          float64Eq d.old.threshold d.new.threshold = false ∨
          d.old.threshold_type ≠ d.new.threshold_type ∨
          d.old.notification_type ≠ d.new.notification_type)) := by
  rw [← keyChanged_iff]
  by_cases h : expandSubscribers d = []
  · have h2 := (expandSubscribers_eq_nil_iff d).1 h
    simp [update_of_nil d meta hist h, h2.1, h2.2]
  · have hne : d.new.subscriber_email_addresses.items ≠ [] ∨
        d.new.subscriber_sns_topic_arns.items ≠ [] := by
      by_contra hcon
      simp only [not_or, not_not] at hcon
      exact h ((expandSubscribers_eq_nil_iff d).2 hcon)
    have hlen : ¬ (expandSubscribers d).length = 0 := by
      simpa [List.length_eq_zero] using h
    have hsub := updateSubscriptions_trace d meta hist
    have hkdef : (d.HasChange "comparison_operator" || d.HasChange "threshold" ||
        d.HasChange "threshold_type" || d.HasChange "notification_type") = keyChanged d := rfl
    simp only [resourceAwsBudgetsBudgetNotificationUpdate, hlen, if_false, hne, true_and,
      hkdef]
    rcases hres : resourceAwsBudgetsBudgetNotificationUpdateSubscriptions d meta hist
      with ⟨_ | e, cs⟩
    · rw [hres] at hsub
      by_cases hk : keyChanged d = true
      · simp only [hk, if_true, and_self, iff_true]
        exact ⟨_, List.mem_append_right _ (List.mem_singleton_self _), rfl⟩
      · simp only [hk, if_false, and_false, iff_false, Bool.false_eq_true]
        rintro ⟨c, hc, hupd⟩
        rw [not_isUpdateNotification_of_isSubscriberCall c (hsub c hc).1] at hupd
        exact Bool.false_ne_true hupd
    · rw [hres] at hsub
      simp only [false_and, iff_false, reduceCtorEq]
      rintro ⟨c, hc, hupd⟩
      rw [not_isUpdateNotification_of_isSubscriberCall c (hsub c hc).1] at hupd
      exact Bool.false_ne_true hupd

/-- C2 fails as stated: the desired record changes all four fields of the comparison key
and has no subscriber, and the update issues no call at all. -/
theorem update_rule_changed_without_subscribers :
    ¬ ((∃ c ∈ (resourceAwsBudgetsBudgetNotificationUpdate recordRuleChangedNoSubscribers
          quietMeta []).2, c.isUpdateNotification = true) ↔
        (recordRuleChangedNoSubscribers.old.comparison_operator ≠
            recordRuleChangedNoSubscribers.new.comparison_operator ∨
          float64Eq recordRuleChangedNoSubscribers.old.threshold
            recordRuleChangedNoSubscribers.new.threshold = false ∨
          recordRuleChangedNoSubscribers.old.threshold_type ≠
            recordRuleChangedNoSubscribers.new.threshold_type ∨
          recordRuleChangedNoSubscribers.old.notification_type ≠
            recordRuleChangedNoSubscribers.new.notification_type)) := by
  decide

/-! ## The subscriber calls of an update in which nothing fails -/

theorem runCalls_of_ok (client : Budgets) (hok : ∀ hist c, client.err hist c = none)
    (l hist : List Call) : runCalls client l hist = (none, l) := by
  induction l generalizing hist with
  | nil => simp [runCalls]
  | cons call rest ih => simp [runCalls, hok, ih]

theorem filter_isSubscriberCall_updateCalls (d : ResourceData) (meta : AWSClient) :
    (updateCalls d meta).filter Call.isSubscriberCall = subscriberCalls d meta := by
  have h1 : (subscriberCalls d meta).filter Call.isSubscriberCall = subscriberCalls d meta :=
    List.filter_eq_self.2 (fun c hc => (mem_subscriberCalls d meta c hc).2.1)
  have h2 : (ruleCalls d meta).filter Call.isSubscriberCall = [] := by
    rw [List.filter_eq_nil_iff]
    intro c hc
    have := phase_of_mem_ruleCalls d meta c hc
    cases c <;> simp_all [Call.phase, Call.isSubscriberCall]
  rw [updateCalls, List.filter_append, h1, h2, List.append_nil]

/-- C8: when the desired record has a subscriber and no remote call fails, the subscriber
calls of an update are, in this order: one `CreateSubscriber` of kind `EMAIL` per desired
email address that is not a previous one, one `CreateSubscriber` of kind `SNS` per desired
topic that is not a previous one, one `DeleteSubscriber` of kind `EMAIL` per previous email
address that is not a desired one, and one `DeleteSubscriber` of kind `SNS` per previous
topic that is not a desired one; each of the four address lists holds no address twice.
Swapping `a@x.com` for `b@x.com` gives one add of `b@x.com` and one remove of `a@x.com`;
adding `c@x.com` and the topic `arn:topic:1` to `a@x.com` gives two adds and no remove. -/
theorem update_subscriber_calls_exact (d : ResourceData) (meta : AWSClient)
    (hist : List Call)
    (hne : d.new.subscriber_email_addresses.items ≠ [] ∨
      d.new.subscriber_sns_topic_arns.items ≠ [])
    (hok : ∀ h c, meta.budgetconn.err h c = none) :
    ((resourceAwsBudgetsBudgetNotificationUpdate d meta hist).2.filter Call.isSubscriberCall =
        (d.new.subscriber_email_addresses.items.filter
            (fun a => decide (a ∉ d.old.subscriber_email_addresses.items))).map
          (fun a => Call.CreateSubscriber d.new.budget_name
            (budgetNotificationAccountId d meta) (expandNotification d)
            ⟨SubscriptionTypeEmail, a⟩) ++
        (d.new.subscriber_sns_topic_arns.items.filter
            (fun a => decide (a ∉ d.old.subscriber_sns_topic_arns.items))).map
          (fun a => Call.CreateSubscriber d.new.budget_name
            (budgetNotificationAccountId d meta) (expandNotification d)
            ⟨SubscriptionTypeSns, a⟩) ++
        (d.old.subscriber_email_addresses.items.filter
            (fun a => decide (a ∉ d.new.subscriber_email_addresses.items))).map
          (fun a => Call.DeleteSubscriber d.new.budget_name
            (budgetNotificationAccountId d meta) (expandNotification d)
            ⟨SubscriptionTypeEmail, a⟩) ++
        (d.old.subscriber_sns_topic_arns.items.filter
            (fun a => decide (a ∉ d.new.subscriber_sns_topic_arns.items))).map
          (fun a => Call.DeleteSubscriber d.new.budget_name
            (budgetNotificationAccountId d meta) (expandNotification d)
            ⟨SubscriptionTypeSns, a⟩)) ∧
      ((d.new.subscriber_email_addresses.items.filter
            (fun a => decide (a ∉ d.old.subscriber_email_addresses.items))).Nodup ∧
        (d.new.subscriber_sns_topic_arns.items.filter
            (fun a => decide (a ∉ d.old.subscriber_sns_topic_arns.items))).Nodup ∧
        (d.old.subscriber_email_addresses.items.filter
            (fun a => decide (a ∉ d.new.subscriber_email_addresses.items))).Nodup ∧
        (d.old.subscriber_sns_topic_arns.items.filter
            (fun a => decide (a ∉ d.new.subscriber_sns_topic_arns.items))).Nodup) ∧
      resourceAwsBudgetsBudgetNotificationUpdate recordSwapEmail quietMeta [] =
        (none,
          [Call.CreateSubscriber "tf-acc-1" "123456789012"
              (expandNotification recordSwapEmail) ⟨"EMAIL", "b@x.com"⟩,
            Call.DeleteSubscriber "tf-acc-1" "123456789012"
              (expandNotification recordSwapEmail) ⟨"EMAIL", "a@x.com"⟩]) ∧
      resourceAwsBudgetsBudgetNotificationUpdate recordAddEmailAndTopic quietMeta [] =
        (none,
          [Call.CreateSubscriber "tf-acc-1" "123456789012"
              (expandNotification recordAddEmailAndTopic) ⟨"EMAIL", "c@x.com"⟩,
            Call.CreateSubscriber "tf-acc-1" "123456789012"
              (expandNotification recordAddEmailAndTopic) ⟨"SNS", "arn:topic:1"⟩]) := by
  have h : expandSubscribers d ≠ [] := by
    intro hnil
    have h2 := (expandSubscribers_eq_nil_iff d).1 hnil
    rcases hne with h1 | h1
    · exact h1 h2.1
    · exact h1 h2.2
  refine ⟨?_, ⟨?_, ?_, ?_, ?_⟩, ?_, ?_⟩
  · rw [update_eq_runCalls d meta hist h, runCalls_of_ok _ hok,
      filter_isSubscriberCall_updateCalls]
    rfl
  · exact d.new.subscriber_email_addresses.nodup.filter _
  · exact d.new.subscriber_sns_topic_arns.nodup.filter _
  · exact d.old.subscriber_email_addresses.nodup.filter _
  · exact d.old.subscriber_sns_topic_arns.nodup.filter _
  · rfl
  · rfl

theorem update_subscriber_calls_exact_witness :
    (resourceAwsBudgetsBudgetNotificationUpdate recordRuleAndSwap quietMeta
        ([] : List Call)).2.filter Call.isSubscriberCall =
      [Call.CreateSubscriber "tf-acc-1" "123456789012"
          (expandNotification recordRuleAndSwap) ⟨"EMAIL", "b@x.com"⟩,
        Call.DeleteSubscriber "tf-acc-1" "123456789012"
          (expandNotification recordRuleAndSwap) ⟨"EMAIL", "a@x.com"⟩] :=
  (update_subscriber_calls_exact recordRuleAndSwap quietMeta []
    (Or.inl (by decide)) (fun _ _ => rfl)).1

/-! ## The key the subscriber calls carry -/

theorem float64Eq_comm (x y : Float64) : float64Eq x y = float64Eq y x := by
  have h : (x.bits % 2 ^ 64 == y.bits % 2 ^ 64) = (y.bits % 2 ^ 64 == x.bits % 2 ^ 64) := by
    rw [Bool.eq_iff_iff]
    simp only [beq_iff_eq]
    exact eq_comm
  simp only [float64Eq, h]
  cases x.isNaN <;> cases y.isNaN <;> cases x.isZero <;> cases y.isZero <;> simp

theorem isSameNotification_new_old (d : ResourceData) :
    isSameNotification (expandNotification d) (oldNotification d) = !keyChanged d := by
  have e1 : (d.new.comparison_operator == d.old.comparison_operator) =
      (d.old.comparison_operator == d.new.comparison_operator) := by
    rw [Bool.eq_iff_iff]
    simp only [beq_iff_eq]
    exact eq_comm
  have e2 : (some d.new.threshold_type == some d.old.threshold_type) =
      (d.old.threshold_type == d.new.threshold_type) := by
    rw [Bool.eq_iff_iff]
    simp only [beq_iff_eq, Option.some.injEq]
    exact eq_comm
  have e3 : (d.new.notification_type == d.old.notification_type) =
      (d.old.notification_type == d.new.notification_type) := by
    rw [Bool.eq_iff_iff]
    simp only [beq_iff_eq]
    exact eq_comm
  have hk : keyChanged d =
      (!(d.old.comparison_operator == d.new.comparison_operator) ||
        !float64Eq d.old.threshold d.new.threshold ||
        !(d.old.threshold_type == d.new.threshold_type) ||
        !(d.old.notification_type == d.new.notification_type)) := by
    simp [keyChanged, ResourceData.HasChange, bne]
  rw [hk]
  simp only [isSameNotification, expandNotification, oldNotification,
    float64Eq_comm d.new.threshold d.old.threshold, e1, e2, e3]
  cases (d.old.comparison_operator == d.new.comparison_operator) <;>
    cases (d.old.threshold_type == d.new.threshold_type) <;>
    cases (d.old.notification_type == d.new.notification_type) <;>
    cases float64Eq d.old.threshold d.new.threshold <;> rfl

/-- C10: in the calls of any update, every `CreateSubscriber` and `DeleteSubscriber` call
names the descriptor of the desired record as its notification; when one of the four
fields of the comparison key differs between the previous and the desired record, that
descriptor is not the same notification as the previous descriptor; and no subscriber
call comes after the `UpdateNotification` call. -/
theorem update_subscriber_calls_carry_new_key (d : ResourceData) (meta : AWSClient)
    (hist : List Call) :
    (∀ c ∈ (resourceAwsBudgetsBudgetNotificationUpdate d meta hist).2,
        c.isSubscriberCall = true → c.subscriberKey = some (expandNotification d)) ∧
      ((d.old.comparison_operator ≠ d.new.comparison_operator ∨
          float64Eq d.old.threshold d.new.threshold = false ∨
          d.old.threshold_type ≠ d.new.threshold_type ∨
          d.old.notification_type ≠ d.new.notification_type) →
        ∀ c ∈ (resourceAwsBudgetsBudgetNotificationUpdate d meta hist).2,
          ∀ n, c.subscriberKey = some n →
            isSameNotification n (oldNotification d) = false) ∧
      (resourceAwsBudgetsBudgetNotificationUpdate d meta hist).2.Pairwise
        (fun earlier later =>
          earlier.isUpdateNotification = true → later.isSubscriberCall = false) := by
  have hkey : ∀ c ∈ (resourceAwsBudgetsBudgetNotificationUpdate d meta hist).2,
      ∀ n, c.subscriberKey = some n → n = expandNotification d := by
    intro c hc n hn
    have hmem := (update_trace_isPrefix d meta hist).subset hc
    simp only [updateCalls, List.mem_append] at hmem
    rcases hmem with hmem | hmem
    · rw [(mem_subscriberCalls d meta c hmem).2.2] at hn
      exact (Option.some.inj hn).symm
    · have := phase_of_mem_ruleCalls d meta c hmem
      cases c <;> simp_all [Call.phase, Call.subscriberKey]
  refine ⟨?_, ?_, ?_⟩
  · intro c hc hsub
    cases c <;> simp_all [Call.isSubscriberCall, Call.subscriberKey]
    · exact (hkey _ hc _ rfl)
    · exact (hkey _ hc _ rfl)
  · intro hdiff c hc n hn
    rw [hkey c hc n hn, isSameNotification_new_old, (keyChanged_iff d).2 hdiff]
    rfl
  · refine (update_trace_sorted d meta hist).imp ?_
    intro a b hab ha
    cases a <;> cases b <;> simp_all [Call.phase, Call.isUpdateNotification,
      Call.isSubscriberCall]

theorem update_subscriber_calls_carry_new_key_witness :
    isSameNotification (expandNotification recordRuleAndSwap)
        (oldNotification recordRuleAndSwap) = false ∧
      (resourceAwsBudgetsBudgetNotificationUpdate recordRuleAndSwap quietMeta []).2 =
        [Call.CreateSubscriber "tf-acc-1" "123456789012"
            (expandNotification recordRuleAndSwap) ⟨"EMAIL", "b@x.com"⟩,
          Call.DeleteSubscriber "tf-acc-1" "123456789012"
            (expandNotification recordRuleAndSwap) ⟨"EMAIL", "a@x.com"⟩,
          Call.UpdateNotification "tf-acc-1" "123456789012"
            (expandNotification recordRuleAndSwap) (oldNotification recordRuleAndSwap)] :=
  ⟨(update_subscriber_calls_carry_new_key recordRuleAndSwap quietMeta []).2.1
      (Or.inl (by decide))
      (Call.CreateSubscriber "tf-acc-1" "123456789012"
        (expandNotification recordRuleAndSwap) ⟨"EMAIL", "b@x.com"⟩)
      (by decide) (expandNotification recordRuleAndSwap) rfl, rfl⟩

end BudgetNotification
